import Mathlib

/-!
Verification of the SQL_GPT repository: a shallow embedding of the
safety gate (`database/db_connector.py`), the builder of generation
requests (`sql_agent/sql_assistant.py`), and the stage-based
conversation controller (`app.py`), together with proofs about the
claims of the specification.

Strings are embedded as Lean `String`; the Python string operations
`upper`, `lower`, `strip`, `startswith` and `in` (substring test) are
embedded as explicit functions on character lists so that all
definitions are executable and kernel-reducible.
-/

/-- Embedding of Python `s.startswith(p)` on character lists. -/
def listStartsWith : List Char → List Char → Bool
  | _, [] => true
  | [], _ :: _ => false
  | c :: cs, p :: ps => c == p && listStartsWith cs ps

/-- Embedding of the Python substring test `pat in l` on character lists. -/
def hasSub : List Char → List Char → Bool
  | [], pat => pat.isEmpty
  | c :: rest, pat => listStartsWith (c :: rest) pat || hasSub rest pat

/-- Embedding of Python `str.strip()`: drop whitespace on both ends. -/
def stripChars (l : List Char) : List Char :=
  ((l.dropWhile Char.isWhitespace).reverse.dropWhile Char.isWhitespace).reverse

/-- Embedding of Python `str.strip()` at string level. -/
def stripString (s : String) : String := String.mk (stripChars s.toList)

/-- Embedding of Python `str.upper()` (ASCII case mapping). -/
def strUpper (s : String) : String := String.mk (s.toList.map Char.toUpper)

/-- Embedding of Python `str.lower()` (ASCII case mapping). -/
def strLower (s : String) : String := String.mk (s.toList.map Char.toLower)

/-- Embedding of Python `needle in hay` at string level. -/
def strContainsSub (hay needle : String) : Bool := hasSub hay.toList needle.toList

/-- `FORBIDDEN_KEYWORDS` from `database/db_connector.py`. -/
def FORBIDDEN_KEYWORDS : List String :=
  ["DELETE", "UPDATE", "ALTER", "DROP", "INSERT", "TRUNCATE", "CREATE"]

/-- `is_query_safe` from `database/db_connector.py`: uppercase the query and
reject it when any forbidden keyword occurs in it as a substring. -/
def is_query_safe (query : String) : Bool :=
  let upper_query := strUpper query
  !(FORBIDDEN_KEYWORDS.any (fun keyword => strContainsSub upper_query keyword))

/-- The allowed statement starters checked by `app.py` on every generated SQL:
`sql.strip().lower().startswith(("select", "with", "show", "describe"))`. -/
def STARTERS : List String := ["select", "with", "show", "describe"]

/-- The shape check of `app.py` applied to generated text before it is accepted
as SQL: after stripping, the lowercased text must start with an allowed
statement keyword. -/
def sql_shape_ok (sql : String) : Bool :=
  let t := (stripChars sql.toList).map Char.toLower
  STARTERS.any (fun p => listStartsWith t p.toList)

section StringLemmas

theorem listStartsWith_iff (p l : List Char) :
    listStartsWith l p = true ↔ ∃ rest, l = p ++ rest := by
  induction p generalizing l with
  | nil =>
    simp [listStartsWith]
  | cons q ps ih =>
    cases l with
    | nil => simp [listStartsWith]
    | cons c cs =>
      simp only [listStartsWith, Bool.and_eq_true, beq_iff_eq, ih, List.cons_append,
        List.cons.injEq]
      constructor
      · rintro ⟨rfl, rest, rfl⟩
        exact ⟨rest, rfl, rfl⟩
      · rintro ⟨rest, rfl, rfl⟩
        exact ⟨rfl, rest, rfl⟩

theorem hasSub_iff (l pat : List Char) :
    hasSub l pat = true ↔ ∃ pre post, l = pre ++ pat ++ post := by
  induction l with
  | nil =>
    simp only [hasSub, List.isEmpty_iff]
    constructor
    · rintro rfl
      exact ⟨[], [], rfl⟩
    · rintro ⟨pre, post, h⟩
      rcases List.append_eq_nil.mp h.symm with ⟨h1, h2⟩
      exact (List.append_eq_nil.mp h1).2
  | cons c rest ih =>
    simp only [hasSub, Bool.or_eq_true, listStartsWith_iff, ih]
    constructor
    · rintro (⟨r, hr⟩ | ⟨pre, post, hp⟩)
      · exact ⟨[], r, by simp [hr]⟩
      · exact ⟨c :: pre, post, by simp [hp]⟩
    · rintro ⟨pre, post, hp⟩
      cases pre with
      | nil =>
        left
        exact ⟨post, by simpa using hp⟩
      | cons x xs =>
        right
        refine ⟨xs, post, ?_⟩
        have := hp
        simp only [List.cons_append, List.cons.injEq] at this
        exact this.2

theorem map_eq_append_decomp {α β : Type} {f : α → β} {l : List α} {a b : List β}
    (h : l.map f = a ++ b) :
    ∃ a' b', l = a' ++ b' ∧ a'.map f = a ∧ b'.map f = b := by
  induction a generalizing l with
  | nil =>
    exact ⟨[], l, by simpa using h⟩
  | cons x xs ih =>
    cases l with
    | nil => simp at h
    | cons c cs =>
      simp only [List.map_cons, List.cons_append, List.cons.injEq] at h
      obtain ⟨a', b', rfl, ha, hb⟩ := ih h.2
      exact ⟨c :: a', b', rfl, by simp [h.1, ha], hb⟩

theorem hasSub_map_iff (f : Char → Char) (l pat : List Char) :
    hasSub (l.map f) pat = true ↔ ∃ w, w.map f = pat ∧ hasSub l w = true := by
  simp only [hasSub_iff]
  constructor
  · rintro ⟨pre, post, h⟩
    rw [List.append_assoc] at h
    obtain ⟨a, rest, rfl, _, hrest⟩ := map_eq_append_decomp h
    obtain ⟨w, post', rfl, hw, _⟩ := map_eq_append_decomp hrest
    exact ⟨w, hw, a, post', by simp⟩
  · rintro ⟨w, hw, pre, post, rfl⟩
    exact ⟨pre.map f, post.map f, by simp [hw]⟩

end StringLemmas

/-! ## Data model: values, turns, sessions, feedback records -/

/-- A datetime value as produced by the database driver (the only value kind
that `json.dump` cannot serialize directly in `app.py`). -/
structure PyDateTime where
  year : Nat
  month : Nat
  day : Nat
  hour : Nat
  minute : Nat
  second : Nat
deriving DecidableEq

/-- A cell value inside a result row. -/
inductive Value where
  | vstr : String → Value
  | vint : Int → Value
  | vdt : PyDateTime → Value
deriving DecidableEq

/-- A query result in the `to_dict(orient="records")` form used by `app.py`:
an ordered sequence of rows, each a mapping from column name to value. -/
abbrev ResultRows := List (List (String × Value))

/-- One chat message as stored in `st.session_state.messages`: a dict with
keys `role`, `content` and the optional keys `result` and `show_plot`. -/
structure Msg where
  role : String
  content : String
  result : Option ResultRows := none
  show_plot : Bool := false
deriving DecidableEq

/-- `FEEDBACK_JSON_PATH` entries written by `append_feedback_to_json`. -/
structure FeedbackRecord where
  id : String
  user_question : String
  incorrect_sql : String
  feedback : String
  correct_sql : String
deriving DecidableEq

/-- The persisted chat file written by `save_chat_to_file`:
`{"title": ..., "messages": ...}`. -/
structure StoredSession where
  title : String
  messages : List Msg
deriving DecidableEq

/-- Zero-pad a number to two digits (Python `datetime.isoformat` field). -/
def pad2 (n : Nat) : String := if n < 10 then "0" ++ toString n else toString n

/-- Zero-pad a number to four digits (Python `datetime.isoformat` year). -/
def pad4 (n : Nat) : String :=
  if n < 10 then "000" ++ toString n
  else if n < 100 then "00" ++ toString n
  else if n < 1000 then "0" ++ toString n
  else toString n

/-- Python `datetime.isoformat()` for whole-second datetimes. -/
def PyDateTime.isoformat (t : PyDateTime) : String :=
  pad4 t.year ++ "-" ++ pad2 t.month ++ "-" ++ pad2 t.day ++ "T" ++
    pad2 t.hour ++ ":" ++ pad2 t.minute ++ ":" ++ pad2 t.second

/-- The effect of `json.dump(..., default=serialize_datetime)` on one value:
datetimes become their ISO-8601 text, every directly serializable value is
written unchanged (`serialize_datetime` in `app.py`). -/
def serialize_value : Value → Value
  | Value.vdt d => Value.vstr d.isoformat
  | v => v

/-- Serialization of one result row. -/
def serialize_row (r : List (String × Value)) : List (String × Value) :=
  r.map (fun p => (p.1, serialize_value p.2))

/-- Serialization of one message: only values inside `result` can hold
datetimes; `role`, `content` and `show_plot` are written unchanged. -/
def serialize_msg (m : Msg) : Msg :=
  { m with result := m.result.map (fun rows => rows.map serialize_row) }

/-- Serialization of the whole message list as written to the chat file. -/
def serialize_msgs (msgs : List Msg) : List Msg := msgs.map serialize_msg

/-- Does a value hold a datetime? -/
def Value.is_dt : Value → Bool
  | Value.vdt _ => true
  | _ => false

/-- A message whose result values contain no datetime. -/
def msg_no_dt (m : Msg) : Bool :=
  match m.result with
  | none => true
  | some rows => rows.all (fun r => r.all (fun p => !(Value.is_dt p.2)))

/-- The title derivation of `save_chat_to_file`:
`next((m["content"] for m in messages if m["role"] == "user"), "Untitled Chat")`. -/
def session_title (messages : List Msg) : String :=
  match messages.find? (fun m => m.role == "user") with
  | some m => m.content
  | none => "Untitled Chat"

/-- `save_chat_to_file` from `app.py`: write the session file holding the
derived title and the serialized messages. -/
def save_chat_to_file (messages : List Msg) : StoredSession :=
  { title := session_title messages, messages := serialize_msgs messages }

/-- `load_chat` from `app.py`: return the stored messages, or the empty list
when no file exists for the session. -/
def load_chat (file : Option StoredSession) : List Msg :=
  match file with
  | some data => data.messages
  | none => []

/-- `append_feedback_to_json` from `app.py`: append one feedback entry to the
feedback collection (`uid` stands for the fresh `uuid4` drawn inside). -/
def append_feedback_to_json (uid user_question incorrect_sql feedback_text correct_sql : String)
    (file : List FeedbackRecord) : List FeedbackRecord :=
  file ++ [{ id := uid, user_question := user_question, incorrect_sql := incorrect_sql,
             feedback := feedback_text, correct_sql := correct_sql }]

/-! ## Prompt building (`sql_agent/sql_assistant.py`) -/

/-- One loop iteration of `build_prompt`: user turns render as
`User: <content>`, assistant turns as `Assistant SQL: <content>`, any other
role contributes nothing. -/
def render_msg (m : Msg) : String :=
  if m.role == "user" then "User: " ++ m.content ++ "\n"
  else if m.role == "assistant" then "Assistant SQL: " ++ m.content ++ "\n"
  else ""

/-- The fixed instruction ending every prompt of `build_prompt`. -/
def PROMPT_TAIL : String := "Generate an appropriate SQL query to answer the user."

/-- `build_prompt` from `sql_agent/sql_assistant.py`: concatenate the last
five history messages, the new question line, the optional feedback line and
the fixed instruction.  Python truthiness makes `None`, the empty history and
the empty feedback string all skip their block. -/
def build_prompt (user_question : String) (feedback : Option String := none)
    (previous_messages : Option (List Msg) := none) : String :=
  let prompt : String := ""
  let prompt :=
    match previous_messages with
    | some msgs =>
      if msgs.isEmpty then prompt
      else (msgs.drop (msgs.length - 5)).foldl (fun acc m => acc ++ render_msg m) prompt
    | none => prompt
  let prompt := prompt ++ "\nUser: " ++ user_question ++ "\n"
  let prompt :=
    match feedback with
    | some f => if f == "" then prompt else prompt ++ "Feedback: " ++ f ++ "\n"
    | none => prompt
  prompt ++ PROMPT_TAIL

/-- The generation capability `vn.generate_sql`: an oracle from prompt text to
either an error or the generated text. -/
abbrev Gen := String → Except String String

/-- The execution capability `vn.run_sql` wired by `train_vanna` through the
Vanna library connection: an oracle from SQL text to either a raised error or
result rows. -/
abbrev Run := String → Except String ResultRows

/-- `generate_sql_with_feedback` from `sql_agent/sql_assistant.py`: build the
prompt and hand it to the generator. -/
def generate_sql_with_feedback (gen : Gen) (question : String)
    (feedback : Option String := none) (previous_messages : Option (List Msg) := none) :
    Except String String :=
  gen (build_prompt question feedback previous_messages)

/-! ## Conversation controller (`app.py`) -/

/-- The in-memory state of one Streamlit session plus the two files it
touches: the per-session chat file and the shared feedback collection. -/
structure AppState where
  stage : String
  messages : List Msg
  user_question : String
  sql : String
  query_result : Option ResultRows
  user_feedback : String
  chat_file : Option StoredSession
  feedback_file : List FeedbackRecord
deriving DecidableEq

/-- The session initialization block of `app.py` (fresh session keys, empty
files on disk for a fresh deployment). -/
def init_state : AppState :=
  { stage := "ask_question", messages := [], user_question := "", sql := "",
    query_result := none, user_feedback := "", chat_file := none, feedback_file := [] }

/-- `reset_to_ask_question` from `app.py`. -/
def reset_to_ask_question (s : AppState) : AppState :=
  { s with stage := "ask_question", user_question := "", sql := "",
           query_result := none, user_feedback := "" }

/-- The `save_chat_to_file(st.session_state.messages, ...)` call sites:
overwrite the session file with the current messages. -/
def save_chat (s : AppState) : AppState :=
  { s with chat_file := some (save_chat_to_file s.messages) }

/-- A user turn as appended by `app.py` (`{"role": "user", "content": ...}`). -/
def user_msg (c : String) : Msg :=
  { role := "user", content := c, result := none, show_plot := false }

/-- The assistant turn appended by the `show_query` stage. -/
def assistant_msg (c : String) (r : ResultRows) (p : Bool) : Msg :=
  { role := "assistant", content := c, result := some r, show_plot := p }

/-- The plotting-intent keywords of `user_wants_plot`. -/
def PLOT_WORDS : List String :=
  ["plot", "chart", "graph", "visualize", "draw", "visualisation"]

/-- Regex word characters for the word-boundary anchors in `user_wants_plot`. -/
def isWordChar (c : Char) : Bool := c.isAlphanum || c == '_'

/-- A whole-word occurrence of `w` at the head of `l`: `l` starts with `w` and
the following character, if any, is not a word character. -/
def has_word_at (w l : List Char) : Bool :=
  listStartsWith l w &&
    (match l.drop w.length with
     | [] => true
     | c :: _ => !isWordChar c)

/-- Scan for a whole-word occurrence of `w`; `prev_ok` records whether the
position following the previously seen character is a word boundary. -/
def has_word_search (w : List Char) (prev_ok : Bool) : List Char → Bool
  | [] => false
  | c :: rest =>
    (prev_ok && has_word_at w (c :: rest)) || has_word_search w (!isWordChar c) rest

/-- `user_wants_plot` from `app.py`: search the lowercased question for any
plotting keyword as a whole word. -/
def user_wants_plot (question : String) : Bool :=
  let l := question.toList.map Char.toLower
  PLOT_WORDS.any (fun w => has_word_search w.toList true l)

/-- The `ask_question` stage body of `app.py`: admit the question through
`is_query_safe`, append and persist the user turn, generate SQL with the
message history as context, and accept it only when its shape is valid. -/
def ask_question_step (gen : Gen) (user_input : String) (s : AppState) : AppState :=
  if user_input == "" then s
  else if !(is_query_safe user_input) then s
  else
    let s1 := save_chat { s with user_question := user_input,
                                 messages := s.messages ++ [user_msg user_input] }
    match generate_sql_with_feedback gen user_input none (some s1.messages) with
    | Except.error _ => s1
    | Except.ok sql =>
      if sql_shape_ok sql then { s1 with sql := sql, stage := "show_query" } else s1

/-- The `show_query` stage body of `app.py`: run the current SQL; on success
drop an immediately preceding identical assistant turn, append the result
turn, persist, and move to `ask_feedback`; on a raised execution error reset
to `ask_question`. -/
def show_query_step (run : Run) (s : AppState) : AppState :=
  match run s.sql with
  | Except.error _ => reset_to_ask_question s
  | Except.ok result_df =>
    let s1 := { s with query_result := some result_df }
    let wants_plot := user_wants_plot s1.user_question
    let msgs :=
      match s1.messages.getLast? with
      | some m =>
        if m.role == "assistant" && m.content == s1.sql then s1.messages.dropLast
        else s1.messages
      | none => s1.messages
    let s2 := save_chat { s1 with
      messages := msgs ++ [assistant_msg s1.sql result_df wants_plot] }
    { s2 with stage := "ask_feedback" }

/-- The three interactions available in the `ask_feedback` stage. -/
inductive FeedbackAction where
  | yes
  | no
  | newQuestion (q : String)
deriving DecidableEq

/-- The `ask_feedback` stage body of `app.py`: a thumbs-up resets, a
thumbs-down moves to `get_feedback`, and a new question resets and then
behaves like question handling (with no safety check on this path). -/
def ask_feedback_step (gen : Gen) (a : FeedbackAction) (s : AppState) : AppState :=
  match a with
  | FeedbackAction.yes => reset_to_ask_question s
  | FeedbackAction.no => { s with stage := "get_feedback" }
  | FeedbackAction.newQuestion q =>
    if q == "" then s
    else
      let s1 := reset_to_ask_question s
      let s2 := save_chat { s1 with user_question := q,
                                    messages := s1.messages ++ [user_msg q] }
      match generate_sql_with_feedback gen q none (some s2.messages) with
      | Except.error _ => s2
      | Except.ok sql =>
        if sql_shape_ok sql then { s2 with sql := sql, stage := "show_query" } else s2

/-- The `get_feedback` stage body of `app.py`: with non-blank feedback text,
regenerate SQL from the original question and the feedback only; on a valid
shape, log the feedback record, append the feedback note and the new SQL as
turns, persist, and re-enter `show_query`. -/
def get_feedback_step (gen : Gen) (uid feedback_input : String) (s : AppState) : AppState :=
  let s0 := { s with user_feedback := feedback_input }
  let feedback_text := stripString s0.user_feedback
  if feedback_text == "" then s0
  else
    match generate_sql_with_feedback gen s0.user_question (some feedback_text) none with
    | Except.error _ => s0
    | Except.ok new_sql =>
      if !(sql_shape_ok new_sql) then s0
      else
        let new_file :=
          append_feedback_to_json uid s0.user_question s0.sql feedback_text new_sql
            s0.feedback_file
        let s1 := { s0 with feedback_file := new_file }
        let new_msgs := s1.messages ++
          [user_msg ("Feedback: " ++ feedback_text),
           { role := "assistant", content := new_sql, result := none, show_plot := false }]
        let s2 := save_chat { s1 with sql := new_sql, messages := new_msgs }
        { s2 with stage := "show_query" }

/-- The sidebar manual SQL handler of `app.py`: gate the text through
`is_query_safe`, run it, and on success append the user turn holding the SQL
and an assistant turn labelled `Manual SQL Execution` with the results. -/
def manual_sql_step (run : Run) (manual_sql : String) (s : AppState) : AppState :=
  if is_query_safe manual_sql then
    match run manual_sql with
    | Except.error _ => s
    | Except.ok manual_result =>
      save_chat { s with messages := s.messages ++
        [user_msg manual_sql,
         { role := "assistant", content := "Manual SQL Execution",
           result := some manual_result, show_plot := user_wants_plot manual_sql }] }
  else s

/-- The user interactions driving one script run of `app.py`. -/
inductive AppAction where
  | askQuestion (input : String)
  | showQuery
  | feedback (a : FeedbackAction)
  | submitFeedback (uid text : String)
  | runManual (sql : String)
  | newChat
deriving DecidableEq

/-- One script run of `app.py`: the sidebar handlers run in every stage, the
chat flow dispatches on the stage tag exactly as the `if/elif` chain does. -/
def step (gen : Gen) (run : Run) (a : AppAction) (s : AppState) : AppState :=
  match a with
  | AppAction.runManual q => manual_sql_step run q s
  | AppAction.newChat => { init_state with feedback_file := s.feedback_file }
  | AppAction.askQuestion q =>
    if s.stage == "ask_question" then ask_question_step gen q s else s
  | AppAction.showQuery =>
    if s.stage == "show_query" then show_query_step run s else s
  | AppAction.feedback fa =>
    if s.stage == "ask_feedback" then ask_feedback_step gen fa s else s
  | AppAction.submitFeedback uid t =>
    if s.stage == "get_feedback" then get_feedback_step gen uid t s else s

/-! ## Claim-specific definitions -/

/-- `DBConnector.execute_query` from `database/db_connector.py`: re-verify the
denylist and raise before any driver work; `exec` stands for the cursor
execute/fetch sequence, which may itself raise, return rows, or return `None`
when no result set is produced. -/
def execute_query (exec : String → Except String (Option ResultRows)) (query : String) :
    Except String (Option ResultRows) :=
  if !(is_query_safe query) then
    Except.error "Query rejected: Write operations are not allowed."
  else exec query

/-- Two adjacent turns that the duplicate-suppression rule must never leave in
the list: both assistant turns with identical SQL content. -/
def dup_pair (a b : Msg) : Bool :=
  a.role == "assistant" && b.role == "assistant" && a.content == b.content

/-- No two adjacent assistant turns with identical content anywhere in the
list. -/
def adj_dup_free : List Msg → Bool
  | [] => true
  | [_] => true
  | a :: b :: rest => !(dup_pair a b) && adj_dup_free (b :: rest)

/-- Every assistant turn in the list carries either shape-validated SQL or the
fixed manual-path label. -/
def msgs_ok (l : List Msg) : Prop :=
  ∀ m ∈ l, m.role = "assistant" →
    sql_shape_ok m.content = true ∨ m.content = "Manual SQL Execution"

/-- The guarantee the controller actually maintains for stored SQL: assistant
turns and feedback-record SQL fields pass the shape allowlist (not the
SafetyGate denylist) whenever they are stored. -/
def stored_sql_ok (s : AppState) : Prop :=
  msgs_ok s.messages
  ∧ (s.sql = "" ∨ sql_shape_ok s.sql = true)
  ∧ (s.stage = "show_query" → sql_shape_ok s.sql = true)
  ∧ (∀ r ∈ s.feedback_file,
      sql_shape_ok r.correct_sql = true
      ∧ (r.incorrect_sql = "" ∨ sql_shape_ok r.incorrect_sql = true))

/-- The history section of a prompt: each message rendered in chronological
order. -/
def history_block : List Msg → String
  | [] => ""
  | m :: t => render_msg m ++ history_block t

/-- The optional feedback line of a prompt. -/
def feedback_block : Option String → String
  | some f => if f == "" then "" else "Feedback: " ++ f ++ "\n"
  | none => ""

/-- Generator returning shape-valid SQL whose text nevertheless contains the
denylisted word DROP inside an identifier. -/
def c1Gen : Gen := fun _ => Except.ok "select name from dropout_log"

/-- Runner that succeeds with an empty result set. -/
def c1Run : Run := fun _ => Except.ok []

/-- The state after asking a safe question and executing the generated SQL. -/
def c1_s2 : AppState :=
  step c1Gen c1Run AppAction.showQuery
    (step c1Gen c1Run (AppAction.askQuestion "show attrition records") init_state)

/-- Generator returning shape-valid SQL containing the denylisted word DROP. -/
def c2Gen : Gen := fun _ => Except.ok "select id from dropped_items"

/-- Runner returning a recognizable row, marking that execution took place. -/
def c2Run : Run := fun _ => Except.ok [[("tag", Value.vint 7)]]

/-- The state after the controller executes the denylisted SQL. -/
def c2_s2 : AppState :=
  step c2Gen c2Run AppAction.showQuery
    (step c2Gen c2Run (AppAction.askQuestion "show removed stock") init_state)

/-- An assistant turn used twice in a row as the incoming message list. -/
def c5_dup : Msg :=
  { role := "assistant", content := "select x", result := some [], show_plot := false }

/-- Runner for the duplicate-suppression counterexample. -/
def c5Run : Run := fun _ => Except.ok []

/-- A state whose message list already ends in two identical assistant turns
matching the SQL about to be executed. -/
def c5_state : AppState :=
  { init_state with stage := "show_query", sql := "select x",
                    messages := [c5_dup, c5_dup] }

/-- Generator that fails, leaving the new-question flow right after its reset
and appends. -/
def c8Gen : Gen := fun _ => Except.error "service down"

/-- Runner for the reset counterexample (never reached). -/
def c8Run : Run := fun _ => Except.ok []

/-- A mid-flow state in the `ask_feedback` stage. -/
def c8_state : AppState :=
  { init_state with stage := "ask_feedback", user_question := "old question",
                    sql := "select 1" }

/-- The state after a new question is asked mid-flow. -/
def c8_after : AppState :=
  step c8Gen c8Run (AppAction.feedback (FeedbackAction.newQuestion "show spend by vendor"))
    c8_state

/-! ## Helper lemmas -/

theorem serialize_value_id {v : Value} (h : Value.is_dt v = false) :
    serialize_value v = v := by
  cases v with
  | vdt d => simp [Value.is_dt] at h
  | vstr s => rfl
  | vint n => rfl

theorem serialize_row_id {r : List (String × Value)}
    (h : r.all (fun p => !(Value.is_dt p.2)) = true) : serialize_row r = r := by
  induction r with
  | nil => rfl
  | cons p t ih =>
    simp only [List.all_cons, Bool.and_eq_true, Bool.not_eq_true'] at h
    simp only [serialize_row, List.map_cons]
    rw [serialize_value_id h.1]
    have ht := ih (by simpa [List.all_eq_true] using h.2)
    simp only [serialize_row] at ht
    rw [ht]

theorem serialize_rows_id {rows : ResultRows}
    (h : rows.all (fun r => r.all (fun p => !(Value.is_dt p.2))) = true) :
    rows.map serialize_row = rows := by
  induction rows with
  | nil => rfl
  | cons r t ih =>
    simp only [List.all_cons, Bool.and_eq_true] at h
    simp only [List.map_cons, serialize_row_id h.1, ih h.2]

theorem serialize_msg_id {m : Msg} (h : msg_no_dt m = true) : serialize_msg m = m := by
  cases m with
  | mk role content result show_plot =>
    cases result with
    | none => rfl
    | some rows =>
      simp only [msg_no_dt] at h
      simp only [serialize_msg, Option.map_some', serialize_rows_id h]

theorem serialize_msgs_id {msgs : List Msg} (h : msgs.all msg_no_dt = true) :
    serialize_msgs msgs = msgs := by
  induction msgs with
  | nil => rfl
  | cons m t ih =>
    simp only [List.all_cons, Bool.and_eq_true] at h
    simp only [serialize_msgs, List.map_cons, serialize_msg_id h.1]
    have := ih h.2
    simp only [serialize_msgs] at this
    rw [this]

theorem adj_dup_free_cons_cons {a b : Msg} {rest : List Msg} :
    adj_dup_free (a :: b :: rest) = (!(dup_pair a b) && adj_dup_free (b :: rest)) := rfl

theorem adj_dup_free_dropLast {l : List Msg} (h : adj_dup_free l = true) :
    adj_dup_free l.dropLast = true := by
  induction l with
  | nil => rfl
  | cons a tl ih =>
    cases tl with
    | nil => rfl
    | cons b rest =>
      rw [adj_dup_free_cons_cons, Bool.and_eq_true] at h
      have hb := ih h.2
      cases rest with
      | nil => rfl
      | cons c rest' =>
        simp only [List.dropLast_cons₂] at hb ⊢
        rw [adj_dup_free_cons_cons, Bool.and_eq_true]
        exact ⟨h.1, hb⟩

theorem adj_dup_free_append_singleton {l : List Msg} {x : Msg}
    (h : adj_dup_free l = true)
    (hlast : ∀ m, l.getLast? = some m → dup_pair m x = false) :
    adj_dup_free (l ++ [x]) = true := by
  induction l with
  | nil => rfl
  | cons a tl ih =>
    cases tl with
    | nil =>
      have := hlast a rfl
      simp only [List.cons_append, List.nil_append, adj_dup_free_cons_cons, this,
        Bool.not_false, Bool.true_and]
      rfl
    | cons b rest =>
      rw [adj_dup_free_cons_cons, Bool.and_eq_true] at h
      have htl := ih h.2 (fun m hm => hlast m (by rw [List.getLast?_cons_cons]; exact hm))
      simp only [List.cons_append] at htl ⊢
      rw [adj_dup_free_cons_cons, Bool.and_eq_true]
      exact ⟨h.1, htl⟩

theorem adj_dup_free_last_two {l : List Msg} {a b : Msg}
    (h : adj_dup_free l = true) (hb : l.getLast? = some b)
    (ha : l.dropLast.getLast? = some a) : dup_pair a b = false := by
  induction l with
  | nil => simp at hb
  | cons x tl ih =>
    cases tl with
    | nil => simp at ha
    | cons y rest =>
      rw [adj_dup_free_cons_cons, Bool.and_eq_true] at h
      cases rest with
      | nil =>
        simp only [List.getLast?_cons_cons] at hb
        simp only [List.dropLast_cons₂, List.dropLast_single] at ha
        simp only [List.getLast?_singleton, Option.some.injEq] at hb ha
        subst hb
        subst ha
        simpa using h.1
      | cons z rest' =>
        apply ih h.2
        · rw [List.getLast?_cons_cons] at hb
          exact hb
        · simp only [List.dropLast_cons₂] at ha ⊢
          rw [List.getLast?_cons_cons] at ha
          cases rest' with
          | nil => simpa using ha
          | cons w rest'' => simpa using ha

theorem msgs_ok_append {l₁ l₂ : List Msg} (h1 : msgs_ok l₁) (h2 : msgs_ok l₂) :
    msgs_ok (l₁ ++ l₂) := by
  intro m hm
  rcases List.mem_append.mp hm with h | h
  · exact h1 m h
  · exact h2 m h

theorem msgs_ok_dropLast {l : List Msg} (h : msgs_ok l) : msgs_ok l.dropLast :=
  fun m hm => h m (List.dropLast_subset l hm)

theorem msgs_ok_user (c : String) : msgs_ok [user_msg c] := by
  intro m hm hrole
  simp only [List.mem_singleton] at hm
  subst hm
  simp [user_msg] at hrole

theorem stored_ok_reset {s : AppState} (h : stored_sql_ok s) :
    stored_sql_ok (reset_to_ask_question s) := by
  rcases h with ⟨hm, _, _, hfb⟩
  exact ⟨hm, Or.inl rfl, by simp [reset_to_ask_question], hfb⟩

theorem stored_ok_ask_question (gen : Gen) (q : String) {s : AppState}
    (h : stored_sql_ok s) : stored_sql_ok (ask_question_step gen q s) := by
  rcases h with ⟨hm, hsql, hstage, hfb⟩
  simp only [ask_question_step]
  split
  · exact ⟨hm, hsql, hstage, hfb⟩
  split
  · exact ⟨hm, hsql, hstage, hfb⟩
  have hm1 : msgs_ok (s.messages ++ [user_msg q]) := msgs_ok_append hm (msgs_ok_user q)
  split
  · exact ⟨hm1, hsql, hstage, hfb⟩
  rename_i sql heq
  split
  · rename_i hshape
    exact ⟨hm1, Or.inr hshape, fun _ => hshape, hfb⟩
  · exact ⟨hm1, hsql, hstage, hfb⟩

theorem stored_ok_show_query (run : Run) {s : AppState}
    (h : stored_sql_ok s) (hsql : sql_shape_ok s.sql = true) :
    stored_sql_ok (show_query_step run s) := by
  rcases h with ⟨hm, _, _, hfb⟩
  simp only [show_query_step]
  split
  · exact stored_ok_reset ⟨hm, Or.inr hsql, fun _ => hsql, hfb⟩
  rename_i rows heq
  have hnew : msgs_ok [assistant_msg s.sql rows (user_wants_plot s.user_question)] := by
    intro m hmem _
    simp only [List.mem_singleton] at hmem
    subst hmem
    exact Or.inl hsql
  refine ⟨?_, Or.inr hsql, by simp [save_chat], hfb⟩
  split
  · split
    · exact msgs_ok_append (msgs_ok_dropLast hm) hnew
    · exact msgs_ok_append hm hnew
  · exact msgs_ok_append hm hnew

theorem stored_ok_ask_feedback (gen : Gen) (a : FeedbackAction) {s : AppState}
    (h : stored_sql_ok s) : stored_sql_ok (ask_feedback_step gen a s) := by
  obtain ⟨hm, hsql, hstage, hfb⟩ := h
  cases a with
  | yes => exact stored_ok_reset ⟨hm, hsql, hstage, hfb⟩
  | no =>
    refine ⟨hm, hsql, ?_, hfb⟩
    intro heq
    have hx : ("get_feedback" : String) = "show_query" := heq
    simp at hx
  | newQuestion q =>
    simp only [ask_feedback_step]
    split
    · exact ⟨hm, hsql, hstage, hfb⟩
    have hm1 : msgs_ok (s.messages ++ [user_msg q]) := msgs_ok_append hm (msgs_ok_user q)
    split
    · exact ⟨hm1, Or.inl rfl, by simp [reset_to_ask_question, save_chat], hfb⟩
    rename_i sql heq
    split
    · rename_i hshape
      exact ⟨hm1, Or.inr hshape, fun _ => hshape, hfb⟩
    · exact ⟨hm1, Or.inl rfl, by simp [reset_to_ask_question, save_chat], hfb⟩

theorem stored_ok_get_feedback (gen : Gen) (uid t : String) {s : AppState}
    (h : stored_sql_ok s) : stored_sql_ok (get_feedback_step gen uid t s) := by
  obtain ⟨hm, hsql, hstage, hfb⟩ := h
  simp only [get_feedback_step]
  split
  · exact ⟨hm, hsql, hstage, hfb⟩
  split
  · exact ⟨hm, hsql, hstage, hfb⟩
  rename_i new_sql heq
  split
  · exact ⟨hm, hsql, hstage, hfb⟩
  rename_i hshape
  have hshape' : sql_shape_ok new_sql = true := by
    simpa using hshape
  refine ⟨?_, Or.inr hshape', fun _ => hshape', ?_⟩
  · apply msgs_ok_append hm
    intro m hmem
    simp only [List.mem_cons, List.mem_singleton] at hmem
    rcases hmem with rfl | rfl | hfalse
    · intro hrole
      simp [user_msg] at hrole
    · intro _
      exact Or.inl hshape'
    · simp at hfalse
  · intro r hr
    simp only [append_feedback_to_json] at hr
    rcases List.mem_append.mp hr with hr2 | hx
    · exact hfb r hr2
    · simp only [List.mem_singleton] at hx
      subst hx
      exact ⟨hshape', hsql⟩

theorem stored_ok_manual (run : Run) (q : String) {s : AppState}
    (h : stored_sql_ok s) : stored_sql_ok (manual_sql_step run q s) := by
  obtain ⟨hm, hsql, hstage, hfb⟩ := h
  simp only [manual_sql_step]
  split
  · split
    · exact ⟨hm, hsql, hstage, hfb⟩
    refine ⟨?_, hsql, hstage, hfb⟩
    apply msgs_ok_append hm
    intro m hmem
    simp only [List.mem_cons, List.mem_singleton] at hmem
    rcases hmem with rfl | rfl | hfalse
    · intro hrole
      simp [user_msg] at hrole
    · intro _
      exact Or.inr rfl
    · simp at hfalse
  · exact ⟨hm, hsql, hstage, hfb⟩

/-! ## Claim theorems -/

/-- C1, counterexample: the claimed invariant fails on a reachable execution.
From the initial state the safe question `show attrition records` is accepted,
the generator returns the shape-valid text `select name from dropout_log`,
execution succeeds, and the controller stores that text as an assistant turn
although `is_query_safe` rejects it (it contains the substring DROP). -/
theorem sql_gpt_C1_cex :
    c1_s2.messages.getLast? = some (assistant_msg "select name from dropout_log" [] false)
    ∧ is_query_safe "select name from dropout_log" = false := by
  constructor
  · rfl
  · decide

/-- C1, amended: the guarantee the controller maintains for stored SQL is the
shape allowlist, not the SafetyGate denylist: every assistant turn appended
holds shape-validated SQL (or the fixed manual-path label), the current SQL is
blank or shape-valid and is shape-valid whenever the stage is `show_query`,
and every feedback record holds a shape-valid `correct_sql` and a blank or
shape-valid `incorrect_sql`.  This holds initially and is preserved by every
controller step. -/
theorem sql_gpt_C1_amended (gen : Gen) (run : Run) (a : AppAction) (s : AppState)
    (h : stored_sql_ok s) :
    stored_sql_ok init_state ∧ stored_sql_ok (step gen run a s) := by
  constructor
  · refine ⟨?_, Or.inl rfl, ?_, ?_⟩
    · intro m hm
      simp [init_state] at hm
    · intro hq
      simp [init_state] at hq
    · intro r hr
      simp [init_state] at hr
  · cases a with
    | runManual q => exact stored_ok_manual run q h
    | newChat =>
      simp only [step]
      refine ⟨?_, Or.inl rfl, ?_, h.2.2.2⟩
      · intro m hm
        simp [init_state] at hm
      · intro hq
        simp [init_state] at hq
    | askQuestion q =>
      simp only [step]
      split
      · exact stored_ok_ask_question gen q h
      · exact h
    | showQuery =>
      simp only [step]
      split
      · rename_i hstg
        exact stored_ok_show_query run h (h.2.2.1 (beq_iff_eq.mp hstg))
      · exact h
    | feedback fa =>
      simp only [step]
      split
      · exact stored_ok_ask_feedback gen fa h
      · exact h
    | submitFeedback uid t =>
      simp only [step]
      split
      · exact stored_ok_get_feedback gen uid t h
      · exact h

/-- C1, witness: the amended invariant instantiated on a concrete step. -/
theorem sql_gpt_C1_amended_witness :
    stored_sql_ok init_state
    ∧ stored_sql_ok (step (fun _ => Except.ok "select 1") (fun _ => Except.ok [])
        (AppAction.askQuestion "show spend") init_state) :=
  sql_gpt_C1_amended _ _ _ _
    ⟨by intro m hm; simp [init_state] at hm,
     Or.inl rfl,
     by intro hq; simp [init_state] at hq,
     by intro r hr; simp [init_state] at hr⟩

/-- C2, counterexample: on the execution path the controller actually uses,
no denylist re-verification happens.  The shape-valid but denylisted SQL
`select id from dropped_items` reaches `show_query`, the runner is invoked and
its marker result is stored, and no error is raised: the stage advances to
`ask_feedback`. -/
theorem sql_gpt_C2_cex :
    is_query_safe c2_s2.sql = false
    ∧ c2_s2.query_result = some [[("tag", Value.vint 7)]]
    ∧ c2_s2.stage = "ask_feedback" := by
  refine ⟨by decide, rfl, rfl⟩

/-- C2, amended: `DBConnector.execute_query` does re-verify the denylist and
raises without attempting execution on any denylisted text, independently of
the driver behaviour; but the controller executes through the external
`vn.run_sql`, and its `show_query` path hands the current SQL to that runner
with no denylist check, recording whatever the runner returns. -/
theorem sql_gpt_C2_amended (exec : String → Except String (Option ResultRows))
    (query : String) (run : Run) (s : AppState) (rows : ResultRows)
    (hrejected : is_query_safe query = false) (hrun : run s.sql = Except.ok rows) :
    execute_query exec query
      = Except.error "Query rejected: Write operations are not allowed."
    ∧ (show_query_step run s).query_result = some rows
    ∧ (show_query_step run s).stage = "ask_feedback" := by
  refine ⟨?_, ?_, ?_⟩
  · simp [execute_query, hrejected]
  · unfold show_query_step
    rw [hrun]
    rfl
  · unfold show_query_step
    rw [hrun]

/-- C2, witness: the amended statement instantiated at a denylisted query and
a concrete runner. -/
theorem sql_gpt_C2_amended_witness :
    execute_query (fun _ => Except.ok none) "drop table x"
      = Except.error "Query rejected: Write operations are not allowed."
    ∧ (show_query_step (fun _ => Except.ok []) init_state).query_result = some []
    ∧ (show_query_step (fun _ => Except.ok []) init_state).stage = "ask_feedback" :=
  sql_gpt_C2_amended _ _ _ _ _ (by decide) rfl

/-- C3: `is_query_safe` returns false exactly when the text contains some case
combination of a forbidden keyword as a substring, and in particular
`update_count` is unsafe while `select * from orders` is safe. -/
theorem sql_gpt_C3 (s : String) :
    (is_query_safe s = false ↔
      ∃ k ∈ FORBIDDEN_KEYWORDS, ∃ w : List Char, w.map Char.toUpper = k.toList
        ∧ ∃ pre post, s.toList = pre ++ w ++ post)
    ∧ is_query_safe "update_count" = false
    ∧ is_query_safe "select * from orders" = true := by
  refine ⟨?_, by decide, by decide⟩
  simp only [is_query_safe, Bool.not_eq_false', List.any_eq_true]
  apply exists_congr
  intro k
  apply and_congr_right
  intro hk
  show hasSub (s.toList.map Char.toUpper) k.toList = true ↔ _
  rw [hasSub_map_iff]
  apply exists_congr
  intro w
  apply and_congr_right
  intro hw
  exact hasSub_iff _ _

/-- C4: with a generator returning the text `sql`, each of the three
generation paths advances to `show_query` exactly when `sql` passes the shape
check — the trimmed, lowercased text starts with one of the allowed statement
keywords — independently of the SafetyGate denylist. -/
theorem sql_gpt_C4 (gen : Gen) (q sql uid fb : String) (s1 s2 s3 : AppState)
    (hgen : ∀ p, gen p = Except.ok sql)
    (h1 : s1.stage = "ask_question") (hq : q ≠ "") (hsafe : is_query_safe q = true)
    (h3 : s3.stage = "get_feedback") (hfb : stripString fb ≠ "") :
    (sql_shape_ok sql = true ↔ ∃ p ∈ STARTERS, ∃ rest,
        (stripChars sql.toList).map Char.toLower = p.toList ++ rest)
    ∧ ((ask_question_step gen q s1).stage = "show_query" ↔ sql_shape_ok sql = true)
    ∧ ((ask_feedback_step gen (FeedbackAction.newQuestion q) s2).stage = "show_query"
        ↔ sql_shape_ok sql = true)
    ∧ ((get_feedback_step gen uid fb s3).stage = "show_query"
        ↔ sql_shape_ok sql = true) := by
  refine ⟨?_, ?_, ?_, ?_⟩
  · simp only [sql_shape_ok, List.any_eq_true]
    apply exists_congr
    intro p
    apply and_congr_right
    intro hp
    exact listStartsWith_iff _ _
  · simp only [ask_question_step, generate_sql_with_feedback, hgen, hq, hsafe,
      beq_iff_eq, if_false, Bool.not_true, Bool.false_eq_true, if_neg, ite_false]
    split
    · rename_i hshape
      simp [hshape]
    · rename_i hshape
      simp only [Bool.not_eq_true] at hshape
      simp [save_chat, h1, hshape]
  · simp only [ask_feedback_step, generate_sql_with_feedback, hgen]
    rw [if_neg (by simpa using hq)]
    split
    · rename_i hshape
      simp [hshape]
    · rename_i hshape
      simp only [Bool.not_eq_true] at hshape
      simp [save_chat, reset_to_ask_question, hshape]
  · simp only [get_feedback_step, generate_sql_with_feedback, hgen]
    rw [if_neg (by simpa using hfb)]
    split
    · rename_i hshape
      simp only [Bool.not_eq_true'] at hshape
      simp [h3, hshape]
    · rename_i hshape
      simp at hshape
      simp [save_chat, hshape]

/-- C4, witness: the shape gate instantiated with a concrete generator and
states for all three paths. -/
theorem sql_gpt_C4_witness :
    (sql_shape_ok "select 1" = true ↔ ∃ p ∈ STARTERS, ∃ rest,
        (stripChars "select 1".toList).map Char.toLower = p.toList ++ rest)
    ∧ ((ask_question_step (fun _ => Except.ok "select 1") "list orders" init_state).stage
        = "show_query" ↔ sql_shape_ok "select 1" = true)
    ∧ ((ask_feedback_step (fun _ => Except.ok "select 1")
          (FeedbackAction.newQuestion "list orders") init_state).stage
        = "show_query" ↔ sql_shape_ok "select 1" = true)
    ∧ ((get_feedback_step (fun _ => Except.ok "select 1") "uid-1" "fix the join"
          { init_state with stage := "get_feedback" }).stage
        = "show_query" ↔ sql_shape_ok "select 1" = true) :=
  sql_gpt_C4 (fun _ => Except.ok "select 1") "list orders" "select 1" "uid-1"
    "fix the join" init_state init_state { init_state with stage := "get_feedback" }
    (fun _ => rfl) rfl (by decide) (by decide) rfl (by decide)

/-- C5, counterexample: the claim quantifies over every message list, but on a
list that already ends in two identical assistant turns matching the current
SQL, the step pops only one of them and appends the new turn, leaving two
adjacent assistant turns with identical SQL content. -/
theorem sql_gpt_C5_cex :
    (show_query_step c5Run c5_state).messages = [c5_dup, c5_dup]
    ∧ adj_dup_free (show_query_step c5Run c5_state).messages = false := by
  refine ⟨rfl, by decide⟩

/-- C5, amended: when the incoming message list contains no two adjacent
assistant turns with identical content — as holds in every reachable state —
the successful-execution step preserves that property; moreover if the last
message was an assistant turn holding the SQL about to be recorded it is
removed before the new turn is appended, and the appended result turn is
always the new last message. -/
theorem sql_gpt_C5_amended (run : Run) (s : AppState) (rows : ResultRows)
    (hrun : run s.sql = Except.ok rows) (hadj : adj_dup_free s.messages = true) :
    adj_dup_free (show_query_step run s).messages = true
    ∧ (∀ m, s.messages.getLast? = some m → m.role = "assistant" → m.content = s.sql →
        (show_query_step run s).messages
          = s.messages.dropLast
              ++ [assistant_msg s.sql rows (user_wants_plot s.user_question)])
    ∧ (show_query_step run s).messages.getLast?
        = some (assistant_msg s.sql rows (user_wants_plot s.user_question)) := by
  have hmsgs : (show_query_step run s).messages
      = (match s.messages.getLast? with
         | some m => if m.role == "assistant" && m.content == s.sql
                     then s.messages.dropLast else s.messages
         | none => s.messages)
        ++ [assistant_msg s.sql rows (user_wants_plot s.user_question)] := by
    unfold show_query_step
    rw [hrun]
    rfl
  refine ⟨?_, ?_, ?_⟩
  · rw [hmsgs]
    rcases hlast : s.messages.getLast? with _ | m
    · show adj_dup_free (s.messages
        ++ [assistant_msg s.sql rows (user_wants_plot s.user_question)]) = true
      apply adj_dup_free_append_singleton hadj
      intro m hm
      rw [hlast] at hm
      cases hm
    · cases hcond : (m.role == "assistant" && m.content == s.sql) with
      | false =>
        have hred : (match some m with
            | some mm => if mm.role == "assistant" && mm.content == s.sql
                         then s.messages.dropLast else s.messages
            | none => s.messages) = s.messages := by
          simp [hcond]
        rw [hred]
        apply adj_dup_free_append_singleton hadj
        intro m' hm'
        rw [hlast] at hm'
        injection hm' with hm'
        subst hm'
        simpa [dup_pair, assistant_msg] using hcond
      | true =>
        have hred : (match some m with
            | some mm => if mm.role == "assistant" && mm.content == s.sql
                         then s.messages.dropLast else s.messages
            | none => s.messages) = s.messages.dropLast := by
          simp [hcond]
        rw [hred]
        apply adj_dup_free_append_singleton (adj_dup_free_dropLast hadj)
        intro m' hm'
        have h2 := adj_dup_free_last_two hadj hlast hm'
        rw [Bool.and_eq_true] at hcond
        have hconteq : m.content = s.sql := beq_iff_eq.mp hcond.2
        simp only [dup_pair, hcond.1, Bool.true_and, hconteq] at h2
        simpa [dup_pair, assistant_msg, hcond.1] using h2
  · intro m hm hrole hcont
    rw [hmsgs, hm]
    have hc : (m.role == "assistant" && m.content == s.sql) = true := by
      simp [hrole, hcont]
    simp [hc]
  · rw [hmsgs]
    exact List.getLast?_concat _

/-- C5, witness: the amended statement on a concrete state whose last message
is an assistant turn holding the SQL being re-executed. -/
theorem sql_gpt_C5_amended_witness :
    adj_dup_free (show_query_step (fun _ => Except.ok [])
        { init_state with sql := "select 1", messages := [user_msg "q", assistant_msg "select 1" [] false] }).messages = true
    ∧ (∀ m, [user_msg "q", assistant_msg "select 1" [] false].getLast? = some m →
        m.role = "assistant" → m.content = "select 1" →
        (show_query_step (fun _ => Except.ok [])
          { init_state with sql := "select 1", messages := [user_msg "q", assistant_msg "select 1" [] false] }).messages
          = [user_msg "q", assistant_msg "select 1" [] false].dropLast
              ++ [assistant_msg "select 1" [] (user_wants_plot "")])
    ∧ (show_query_step (fun _ => Except.ok [])
        { init_state with sql := "select 1", messages := [user_msg "q", assistant_msg "select 1" [] false] }).messages.getLast?
        = some (assistant_msg "select 1" [] (user_wants_plot "")) :=
  sql_gpt_C5_amended (fun _ => Except.ok [])
    { init_state with sql := "select 1", messages := [user_msg "q", assistant_msg "select 1" [] false] } []
    rfl (by decide)

theorem foldl_render (l : List Msg) (a : String) :
    l.foldl (fun acc m => acc ++ render_msg m) a = a ++ history_block l := by
  induction l generalizing a with
  | nil => simp [history_block, String.append_empty]
  | cons m t ih =>
    simp only [List.foldl_cons, history_block]
    rw [ih, String.append_assoc]

theorem build_prompt_decomposition (q : String) (fb : Option String) (msgs : List Msg) :
    build_prompt q fb (some msgs)
      = history_block (msgs.drop (msgs.length - 5)) ++ ("\nUser: " ++ q ++ "\n")
          ++ feedback_block fb ++ PROMPT_TAIL := by
  simp only [build_prompt]
  have hhist : (if msgs.isEmpty = true then ""
      else (msgs.drop (msgs.length - 5)).foldl (fun acc m => acc ++ render_msg m) "")
      = history_block (msgs.drop (msgs.length - 5)) := by
    split
    · rename_i hemp
      have hnil : msgs = [] := by simpa [List.isEmpty_iff] using hemp
      subst hnil
      rfl
    · rw [foldl_render, String.empty_append]
  rw [hhist]
  cases fb with
  | none =>
    simp [feedback_block, String.append_assoc, String.append_empty, String.empty_append]
  | some f =>
    cases hf : f == "" with
    | true =>
      have : f = "" := beq_iff_eq.mp hf
      subst this
      simp [feedback_block, String.append_assoc, String.append_empty, String.empty_append]
    | false =>
      simp [feedback_block, hf, String.append_assoc, String.append_empty,
        String.empty_append]
      rfl

/-- C6: `build_prompt` is exactly the rendered last-five history block in
chronological order, then the new question line, then the feedback line
exactly when non-blank feedback is provided, then the fixed instruction; the
history beyond the last five messages is ignored and the included window never
exceeds five messages. -/
theorem sql_gpt_C6 (q : String) (fb : Option String) (msgs : List Msg) :
    build_prompt q fb (some msgs)
      = history_block (msgs.drop (msgs.length - 5)) ++ ("\nUser: " ++ q ++ "\n")
          ++ feedback_block fb ++ PROMPT_TAIL
    ∧ build_prompt q fb (some msgs)
        = build_prompt q fb (some (msgs.drop (msgs.length - 5)))
    ∧ (msgs.drop (msgs.length - 5)).length ≤ 5 := by
  have hlen : (msgs.drop (msgs.length - 5)).length ≤ 5 := by
    rw [List.length_drop]
    omega
  refine ⟨build_prompt_decomposition q fb msgs, ?_, hlen⟩
  rw [build_prompt_decomposition q fb msgs,
    build_prompt_decomposition q fb (msgs.drop (msgs.length - 5))]
  have hstable : (msgs.drop (msgs.length - 5)).drop
      ((msgs.drop (msgs.length - 5)).length - 5) = msgs.drop (msgs.length - 5) := by
    have hz : (msgs.drop (msgs.length - 5)).length - 5 = 0 := by omega
    rw [hz, List.drop_zero]
  rw [hstable]

/-- C7: reloading a saved session yields exactly the stored turn sequence,
which is the saved sequence with datetime result values serialized to their
ISO-8601 text — hence identical to the saved sequence whenever it holds no
datetimes — and the persisted title is the content of the first user turn. -/
theorem sql_gpt_C7 (msgs dmsgs : List Msg) (m : Msg)
    (hfind : msgs.find? (fun x => x.role == "user") = some m)
    (hnodt : msgs.all msg_no_dt = true) :
    load_chat (some (save_chat_to_file dmsgs)) = serialize_msgs dmsgs
    ∧ load_chat (some (save_chat_to_file msgs)) = msgs
    ∧ (save_chat_to_file msgs).title = m.content := by
  refine ⟨rfl, ?_, ?_⟩
  · show serialize_msgs msgs = msgs
    exact serialize_msgs_id hnodt
  · simp [save_chat_to_file, session_title, hfind]

/-- C7, witness: the round trip on a concrete session with a user turn, and
the stored form of a result carrying a datetime. -/
theorem sql_gpt_C7_witness :
    load_chat (some (save_chat_to_file
        [⟨"assistant", "select d", some [[("ts", Value.vdt ⟨2024, 1, 2, 3, 4, 5⟩)]], false⟩]))
      = serialize_msgs
        [⟨"assistant", "select d", some [[("ts", Value.vdt ⟨2024, 1, 2, 3, 4, 5⟩)]], false⟩]
    ∧ load_chat (some (save_chat_to_file [user_msg "hi"])) = [user_msg "hi"]
    ∧ (save_chat_to_file [user_msg "hi"]).title = (user_msg "hi").content :=
  sql_gpt_C7 [user_msg "hi"]
    [⟨"assistant", "select d", some [[("ts", Value.vdt ⟨2024, 1, 2, 3, 4, 5⟩)]], false⟩]
    (user_msg "hi") (by decide) (by decide)

/-- C8, counterexample: on the new-question-mid-flow trigger the state is not
left fully blank: after the handler runs, `current_question` holds the new
question, not the empty string. -/
theorem sql_gpt_C8_cex :
    c8_after.user_question = "show spend by vendor" ∧ c8_after.user_question ≠ "" := by
  refine ⟨rfl, by decide⟩

/-- C8, amended: accepted positive feedback and an execution error reset the
state fully (stage `ask_question`, question, SQL, result and pending feedback
all blank); the new-question trigger also clears the result and pending
feedback and resets before proceeding, but then immediately behaves as
question handling: `current_question` becomes the new question. -/
theorem sql_gpt_C8_amended (gen : Gen) (run : Run) (q e : String) (s : AppState)
    (hrun : run s.sql = Except.error e) (hq : q ≠ "") :
    ((ask_feedback_step gen FeedbackAction.yes s).stage = "ask_question"
      ∧ (ask_feedback_step gen FeedbackAction.yes s).user_question = ""
      ∧ (ask_feedback_step gen FeedbackAction.yes s).sql = ""
      ∧ (ask_feedback_step gen FeedbackAction.yes s).query_result = none
      ∧ (ask_feedback_step gen FeedbackAction.yes s).user_feedback = "")
    ∧ ((show_query_step run s).stage = "ask_question"
      ∧ (show_query_step run s).user_question = ""
      ∧ (show_query_step run s).sql = ""
      ∧ (show_query_step run s).query_result = none
      ∧ (show_query_step run s).user_feedback = "")
    ∧ ((ask_feedback_step gen (FeedbackAction.newQuestion q) s).user_feedback = ""
      ∧ (ask_feedback_step gen (FeedbackAction.newQuestion q) s).query_result = none
      ∧ (ask_feedback_step gen (FeedbackAction.newQuestion q) s).user_question = q) := by
  refine ⟨⟨rfl, rfl, rfl, rfl, rfl⟩, ?_, ?_⟩
  · unfold show_query_step
    rw [hrun]
    exact ⟨rfl, rfl, rfl, rfl, rfl⟩
  · simp only [ask_feedback_step, generate_sql_with_feedback]
    rw [if_neg (by simpa using hq)]
    split
    · exact ⟨rfl, rfl, rfl⟩
    · split
      · exact ⟨rfl, rfl, rfl⟩
      · exact ⟨rfl, rfl, rfl⟩

/-- C8, witness: the amended statement at a concrete mid-flow state with a
failing runner and a non-blank new question. -/
theorem sql_gpt_C8_amended_witness :
    ((ask_feedback_step (fun _ => Except.ok "select 2") FeedbackAction.yes
        { init_state with stage := "ask_feedback", sql := "select 1", user_question := "prev" }).stage = "ask_question"
      ∧ (ask_feedback_step (fun _ => Except.ok "select 2") FeedbackAction.yes
        { init_state with stage := "ask_feedback", sql := "select 1", user_question := "prev" }).user_question = ""
      ∧ (ask_feedback_step (fun _ => Except.ok "select 2") FeedbackAction.yes
        { init_state with stage := "ask_feedback", sql := "select 1", user_question := "prev" }).sql = ""
      ∧ (ask_feedback_step (fun _ => Except.ok "select 2") FeedbackAction.yes
        { init_state with stage := "ask_feedback", sql := "select 1", user_question := "prev" }).query_result = none
      ∧ (ask_feedback_step (fun _ => Except.ok "select 2") FeedbackAction.yes
        { init_state with stage := "ask_feedback", sql := "select 1", user_question := "prev" }).user_feedback = "")
    ∧ ((show_query_step (fun _ => Except.error "boom")
        { init_state with stage := "ask_feedback", sql := "select 1", user_question := "prev" }).stage = "ask_question"
      ∧ (show_query_step (fun _ => Except.error "boom")
        { init_state with stage := "ask_feedback", sql := "select 1", user_question := "prev" }).user_question = ""
      ∧ (show_query_step (fun _ => Except.error "boom")
        { init_state with stage := "ask_feedback", sql := "select 1", user_question := "prev" }).sql = ""
      ∧ (show_query_step (fun _ => Except.error "boom")
        { init_state with stage := "ask_feedback", sql := "select 1", user_question := "prev" }).query_result = none
      ∧ (show_query_step (fun _ => Except.error "boom")
        { init_state with stage := "ask_feedback", sql := "select 1", user_question := "prev" }).user_feedback = "")
    ∧ ((ask_feedback_step (fun _ => Except.ok "select 2")
          (FeedbackAction.newQuestion "next question")
          { init_state with stage := "ask_feedback", sql := "select 1", user_question := "prev" }).user_feedback = ""
      ∧ (ask_feedback_step (fun _ => Except.ok "select 2")
          (FeedbackAction.newQuestion "next question")
          { init_state with stage := "ask_feedback", sql := "select 1", user_question := "prev" }).query_result = none
      ∧ (ask_feedback_step (fun _ => Except.ok "select 2")
          (FeedbackAction.newQuestion "next question")
          { init_state with stage := "ask_feedback", sql := "select 1", user_question := "prev" }).user_question = "next question") :=
  sql_gpt_C8_amended (fun _ => Except.ok "select 2") (fun _ => Except.error "boom")
    "next question" "boom"
    { init_state with stage := "ask_feedback", sql := "select 1", user_question := "prev" }
    rfl (by decide)

/-- C9: a question containing a denylisted keyword submitted in the
`ask_question` stage leaves the state completely unchanged — the stage stays
`ask_question`, no turn is appended and nothing is persisted. -/
theorem sql_gpt_C9 (gen : Gen) (run : Run) (q : String) (s : AppState)
    (hstage : s.stage = "ask_question") (hrejected : is_query_safe q = false) :
    step gen run (AppAction.askQuestion q) s = s := by
  simp only [step, hstage]
  rw [if_pos (by simp)]
  unfold ask_question_step
  rw [hrejected]
  simp

/-- C9, witness: the unsafe question `delete all orders` is a no-op from the
initial state. -/
theorem sql_gpt_C9_witness :
    step (fun _ => Except.ok "select 1") (fun _ => Except.ok [])
      (AppAction.askQuestion "delete all orders") init_state = init_state :=
  sql_gpt_C9 _ _ _ _ rfl (by decide)

/-- C10: feedback-driven regeneration builds its prompt from the question and
feedback only — no history section at all — so the outcome of the
`get_feedback` stage does not depend on the session message list. -/
theorem sql_gpt_C10 (gen : Gen) (q f uid t : String) (s : AppState) (msgs : List Msg)
    (hf : f ≠ "") :
    generate_sql_with_feedback gen q (some f) none
      = gen ("\nUser: " ++ q ++ "\n" ++ "Feedback: " ++ f ++ "\n" ++ PROMPT_TAIL)
    ∧ (get_feedback_step gen uid t { s with messages := msgs }).sql
        = (get_feedback_step gen uid t s).sql
    ∧ (get_feedback_step gen uid t { s with messages := msgs }).stage
        = (get_feedback_step gen uid t s).stage := by
  refine ⟨?_, ?_, ?_⟩
  · simp only [generate_sql_with_feedback, build_prompt]
    rw [if_neg (by simpa using hf)]
    rfl
  · cases hts : stripString t == "" with
    | true => simp [get_feedback_step, hts]
    | false =>
      rcases hg : generate_sql_with_feedback gen s.user_question (some (stripString t)) none
        with e | nsql
      · simp [get_feedback_step, hts, hg]
      · cases hsh : sql_shape_ok nsql with
        | true => simp [get_feedback_step, save_chat, hts, hg, hsh]
        | false => simp [get_feedback_step, save_chat, hts, hg, hsh]
  · cases hts : stripString t == "" with
    | true => simp [get_feedback_step, hts]
    | false =>
      rcases hg : generate_sql_with_feedback gen s.user_question (some (stripString t)) none
        with e | nsql
      · simp [get_feedback_step, hts, hg]
      · cases hsh : sql_shape_ok nsql with
        | true => simp [get_feedback_step, save_chat, hts, hg, hsh]
        | false => simp [get_feedback_step, save_chat, hts, hg, hsh]

/-- C10, witness: the history-free regeneration prompt and the
history-independence of the `get_feedback` step at concrete inputs. -/
theorem sql_gpt_C10_witness :
    generate_sql_with_feedback (fun _ => Except.ok "select 9") "revenue by month"
        (some "wrong column") none
      = (fun _ => Except.ok "select 9")
          ("\nUser: " ++ "revenue by month" ++ "\n" ++ "Feedback: " ++ "wrong column"
            ++ "\n" ++ PROMPT_TAIL)
    ∧ (get_feedback_step (fun _ => Except.ok "select 9") "u1" " fix it "
        { init_state with messages := [user_msg "x"] }).sql
        = (get_feedback_step (fun _ => Except.ok "select 9") "u1" " fix it " init_state).sql
    ∧ (get_feedback_step (fun _ => Except.ok "select 9") "u1" " fix it "
        { init_state with messages := [user_msg "x"] }).stage
        = (get_feedback_step (fun _ => Except.ok "select 9") "u1" " fix it "
            init_state).stage :=
  sql_gpt_C10 (fun _ => Except.ok "select 9") "revenue by month" "wrong column" "u1"
    " fix it " init_state [user_msg "x"] (by decide)
